import Mathlib

/-!
Verification development for the Moderia marketplace Nillion-DB action
provider (`src/action-providers/nillion-db`).  The definitions below are a
shallow embedding of the TypeScript source: the static constants come from
`constants.ts`, the record shapes and query catalog from `schemas.ts`, the
error class, error codes, `handleFetchResponse` and `formatErrorForAgent`
from `errors.ts`, and the action-provider operations from the
`NillionDBActionProvider` class.
Ambient effects are made explicit parameters:

* the process environment (node URLs/DIDs, schema ids, credentials) becomes
  an explicit `Env` value;
* `crypto.randomUUID()` and `new Date().toISOString()` become a `RecordMeta`
  input;
* the per-node HTTP transport (`fetch`) becomes a function
  `Transport : NodeName → FetchOutcome`, and every issued request is
  collected in the returned `Outcome.requests` list; the model issues a
  `Request` at exactly the points where the source calls `fetch`.

JavaScript `Promise.all` over the per-node fan-out is modelled by
`promiseAll`, which is deterministic: it reports the first rejection in
node-list order (the source reports the first rejection in completion-time
order; no property below depends on which rejection is reported, only on
whether one exists).  JavaScript numbers are modelled as `Rat`;
string truthiness (`s && t`, `x || d`) is translated to emptiness tests and
`Option.getD` matching the source values involved.
-/

/-- Names of the three configured storage nodes (`NODE_CONFIG` keys in
`constants.ts`). -/
inductive NodeName : Type
  | NODE1
  | NODE2
  | NODE3
deriving DecidableEq, Repr

/-- Insertion order of `Object.keys(NODE_CONFIG)`. -/
def nodeKeys : List NodeName := [NodeName.NODE1, NodeName.NODE2, NodeName.NODE3]

/-- Printable node name used in error messages. -/
def nodeNameStr : NodeName → String
  | NodeName.NODE1 => "NODE1"
  | NodeName.NODE2 => "NODE2"
  | NodeName.NODE3 => "NODE3"

/-- Per-node connection configuration (`constants.ts` `NODE_CONFIG` entry):
endpoint URL and identity (DID), both read from the environment with `""`
as the fallback for a missing variable. -/
structure NodeConfig where
  url : String
  did : String
deriving DecidableEq, Repr

/-- The process-wide configuration consumed by the provider: the three node
entries of `NODE_CONFIG`, the three `SCHEMA_IDS`, and the credentials read
by `NillionDBConfig` (`SV_PRIVATE_KEY`, `SV_ORG_DID`). -/
structure Env where
  node1 : NodeConfig
  node2 : NodeConfig
  node3 : NodeConfig
  schemaService : String
  schemaBooking : String
  schemaReview : String
  privateKey : String
  orgDid : String
deriving DecidableEq, Repr

/-- Lookup in `NODE_CONFIG` by node name. -/
def nodeCfg (env : Env) : NodeName → NodeConfig
  | NodeName.NODE1 => env.node1
  | NodeName.NODE2 => env.node2
  | NodeName.NODE3 => env.node3

/-- JavaScript truthiness of `node.url && node.did` for the string-valued
fields: both must be non-empty. -/
def nodeUsable (c : NodeConfig) : Bool :=
  c.url != "" && c.did != ""

/-- Embedding of `NillionDBConfig.getValidNodes`: the configured nodes whose
URL and DID are both non-empty, in `Object.keys` order. -/
def getValidNodes (env : Env) : List NodeName :=
  nodeKeys.filter (fun n => nodeUsable (nodeCfg env n))

namespace API_ENDPOINTS

/-- Endpoint `API_ENDPOINTS.CREATE_SCHEMA` from `constants.ts`. -/
def CREATE_SCHEMA : String := "/api/v1/schemas"

/-- Endpoint `API_ENDPOINTS.CREATE_DATA` from `constants.ts`. -/
def CREATE_DATA : String := "/api/v1/data/create"

/-- Endpoint `API_ENDPOINTS.READ_DATA` from `constants.ts`. -/
def READ_DATA : String := "/api/v1/data/read"

/-- Endpoint `API_ENDPOINTS.CREATE_QUERY` from `constants.ts`. -/
def CREATE_QUERY : String := "/api/v1/queries"

/-- Endpoint `API_ENDPOINTS.EXECUTE_QUERY` from `constants.ts`. -/
def EXECUTE_QUERY : String := "/api/v1/queries/execute"

end API_ENDPOINTS

namespace ERROR_MESSAGES

/-- Message `ERROR_MESSAGES.INVALID_NODE_CONFIG` from `constants.ts`. -/
def INVALID_NODE_CONFIG : String := "Invalid node configuration"

/-- Message `ERROR_MESSAGES.SCHEMA_CREATION_FAILED` from `constants.ts`. -/
def SCHEMA_CREATION_FAILED : String := "Failed to create schema"

/-- Message `ERROR_MESSAGES.DATA_CREATION_FAILED` from `constants.ts`. -/
def DATA_CREATION_FAILED : String := "Failed to create data"

/-- Message `ERROR_MESSAGES.DATA_RETRIEVAL_FAILED` from `constants.ts`. -/
def DATA_RETRIEVAL_FAILED : String := "Failed to retrieve data"

/-- Message `ERROR_MESSAGES.QUERY_EXECUTION_FAILED` from `constants.ts`. -/
def QUERY_EXECUTION_FAILED : String := "Failed to execute query"

end ERROR_MESSAGES

/-- The closed list `SERVICE_TYPES` from `constants.ts`. -/
def SERVICE_TYPES : List String :=
  ["language_class", "tutoring", "consulting", "coaching", "other"]

namespace BOOKING_STATUS

/-- Status `BOOKING_STATUS.PENDING` from `constants.ts`. -/
def PENDING : String := "pending"

/-- Status `BOOKING_STATUS.CONFIRMED` from `constants.ts`. -/
def CONFIRMED : String := "confirmed"

/-- Status `BOOKING_STATUS.COMPLETED` from `constants.ts`. -/
def COMPLETED : String := "completed"

/-- Status `BOOKING_STATUS.CANCELLED` from `constants.ts`. -/
def CANCELLED : String := "cancelled"

/-- Status `BOOKING_STATUS.DISPUTED` from `constants.ts`. -/
def DISPUTED : String := "disputed"

end BOOKING_STATUS

/-- The value list `Object.values(BOOKING_STATUS)` in insertion order, as
used by the validation in `updateBookingStatus`. -/
def bookingStatusValues : List String :=
  [BOOKING_STATUS.PENDING, BOOKING_STATUS.CONFIRMED, BOOKING_STATUS.COMPLETED,
   BOOKING_STATUS.CANCELLED, BOOKING_STATUS.DISPUTED]

/-- The keys of `ERROR_CODES` from `errors.ts`; each maps to the string of
its own name, rendered by `errorCodeStr`. -/
inductive ErrorCode : Type
  | ENV_ERROR
  | CONFIG_ERROR
  | SCHEMA_ERROR
  | DATA_ERROR
  | QUERY_ERROR
  | AUTH_ERROR
  | NETWORK_ERROR
deriving DecidableEq, Repr

/-- The string value of an `ERROR_CODES` entry (in `errors.ts` every key
maps to the identically spelled string). -/
def errorCodeStr : ErrorCode → String
  | ErrorCode.ENV_ERROR => "ENV_ERROR"
  | ErrorCode.CONFIG_ERROR => "CONFIG_ERROR"
  | ErrorCode.SCHEMA_ERROR => "SCHEMA_ERROR"
  | ErrorCode.DATA_ERROR => "DATA_ERROR"
  | ErrorCode.QUERY_ERROR => "QUERY_ERROR"
  | ErrorCode.AUTH_ERROR => "AUTH_ERROR"
  | ErrorCode.NETWORK_ERROR => "NETWORK_ERROR"

/-- Embedding of the `NillionDBError` class: a message plus an error code
(the `details` payload is dropped; no property below inspects it). -/
structure NillionDBError where
  message : String
  code : ErrorCode
deriving DecidableEq, Repr

/-- A JavaScript value raised with `throw`, shaped after the three branches
`formatErrorForAgent` in `errors.ts` distinguishes: a `NillionDBError`, any
other `Error` instance (for example the rejection raised by `fetch`
itself), or a non-Error value, carried as its `String(...)` rendering. -/
inductive Thrown : Type
  | nillion (e : NillionDBError)
  | jsError (message : String)
  | nonError (rendered : String)
deriving DecidableEq, Repr

/-- Embedding of `formatErrorForAgent` from `errors.ts`: a `NillionDBError`
renders as `❌ Error [code]: message`, any other `Error` as
`❌ Error: message`, and a non-Error value as `❌ Unknown error: ...`. -/
def formatErrorForAgent : Thrown → String
  | Thrown.nillion e => "❌ Error [" ++ errorCodeStr e.code ++ "]: " ++ e.message
  | Thrown.jsError m => "❌ Error: " ++ m
  | Thrown.nonError s => "❌ Unknown error: " ++ s

/-- Identifier and timestamps generated locally at record-construction time
(`crypto.randomUUID()` and the two `new Date().toISOString()` calls),
supplied as an explicit input of the model. -/
structure RecordMeta where
  id : String
  createdAt : String
  updatedAt : String
deriving DecidableEq, Repr

/-- Embedding of the `ServiceRecord` interface from `schemas.ts`. -/
structure ServiceRecord where
  id : String
  created_at : String
  updated_at : String
  encrypted : Bool
  provider_id : String
  provider_name : String
  service_type : String
  title : String
  description : String
  price : Rat
  currency : String
  duration_minutes : Rat
  date : String
  time : String
  timezone : String
  meeting_link : Option String
  available : Bool
  tags : List String
deriving DecidableEq, Repr

/-- Embedding of the `BookingRecord` interface from `schemas.ts`. -/
structure BookingRecord where
  id : String
  created_at : String
  updated_at : String
  encrypted : Bool
  service_id : String
  client_id : String
  provider_id : String
  status : String
  booking_date : String
  payment_amount : Rat
  payment_currency : String
  meeting_link : String
  notes : String
  agent_notes : Option String
deriving DecidableEq, Repr

/-- Embedding of the `ReviewRecord` interface from `schemas.ts`. -/
structure ReviewRecord where
  id : String
  created_at : String
  updated_at : String
  encrypted : Bool
  booking_id : String
  service_id : String
  client_id : String
  provider_id : String
  rating : Rat
  comment : String
  disputed : Bool
  dispute_reason : Option String
  agent_resolution : Option String
deriving DecidableEq, Repr

/-- Embedding of `CreateServiceParams`. -/
structure CreateServiceParams where
  providerId : String
  providerName : String
  serviceType : String
  title : String
  description : String
  price : Rat
  currency : String
  durationMinutes : Rat
  date : String
  time : String
  timezone : String
  meetingLink : Option String
  tags : Option (List String)
deriving DecidableEq, Repr

/-- Embedding of `CreateBookingParams`.  Note there is no status field: the
caller cannot choose the initial booking status. -/
structure CreateBookingParams where
  serviceId : String
  clientId : String
  providerId : String
  bookingDate : String
  paymentAmount : Rat
  paymentCurrency : String
  meetingLink : String
  notes : Option String
deriving DecidableEq, Repr

/-- Embedding of `CreateReviewParams`. -/
structure CreateReviewParams where
  bookingId : String
  serviceId : String
  clientId : String
  providerId : String
  rating : Rat
  comment : String
  disputed : Option Bool
  disputeReason : Option String
deriving DecidableEq, Repr

/-- Embedding of `GetAvailableServicesParams`. -/
structure GetAvailableServicesParams where
  serviceType : Option String
deriving DecidableEq, Repr

/-- Embedding of `GetClientBookingsParams`. -/
structure GetClientBookingsParams where
  clientId : String
deriving DecidableEq, Repr

/-- Embedding of `GetProviderBookingsParams`. -/
structure GetProviderBookingsParams where
  providerId : String
deriving DecidableEq, Repr

/-- Embedding of `UpdateBookingStatusParams`. -/
structure UpdateBookingStatusParams where
  bookingId : String
  status : String
  agentNotes : Option String
deriving DecidableEq, Repr

/-- Embedding of `ResolveDisputeParams`. -/
structure ResolveDisputeParams where
  reviewId : String
  resolution : String
deriving DecidableEq, Repr

/-- Embedding of `ExecuteQueryParams`; the free-form `variables` map is
kept as an optional association list (field renamed to `vars` because
`variables` is a reserved word in Lean). -/
structure ExecuteQueryParams where
  queryId : String
  vars : Option (List (String × String))
deriving DecidableEq, Repr

/-- The service record built by `createService` (part_000 lines 318-337):
`encrypted` and `available` are the literal `true`, `tags` falls back to
`[]` when absent (`tags || []`). -/
def buildServiceRecord (p : CreateServiceParams) (meta : RecordMeta) : ServiceRecord :=
  { id := meta.id
    created_at := meta.createdAt
    updated_at := meta.updatedAt
    encrypted := true
    provider_id := p.providerId
    provider_name := p.providerName
    service_type := p.serviceType
    title := p.title
    description := p.description
    price := p.price
    currency := p.currency
    duration_minutes := p.durationMinutes
    date := p.date
    time := p.time
    timezone := p.timezone
    meeting_link := p.meetingLink
    available := true
    tags := p.tags.getD [] }

/-- The booking record built by `createBooking` (part_000 lines 389-403):
`encrypted` is the literal `true`, `status` is the constant
`BOOKING_STATUS.CONFIRMED`, `notes` falls back to `""` (`notes || ""`). -/
def buildBookingRecord (p : CreateBookingParams) (meta : RecordMeta) : BookingRecord :=
  { id := meta.id
    created_at := meta.createdAt
    updated_at := meta.updatedAt
    encrypted := true
    service_id := p.serviceId
    client_id := p.clientId
    provider_id := p.providerId
    status := BOOKING_STATUS.CONFIRMED
    booking_date := p.bookingDate
    payment_amount := p.paymentAmount
    payment_currency := p.paymentCurrency
    meeting_link := p.meetingLink
    notes := p.notes.getD ""
    agent_notes := none }

/-- The review record built by `createReview` (part_000 lines 465-478):
`encrypted` is the literal `true`, `disputed` falls back to `false`
(`disputed || false`). -/
def buildReviewRecord (p : CreateReviewParams) (meta : RecordMeta) : ReviewRecord :=
  { id := meta.id
    created_at := meta.createdAt
    updated_at := meta.updatedAt
    encrypted := true
    booking_id := p.bookingId
    service_id := p.serviceId
    client_id := p.clientId
    provider_id := p.providerId
    rating := p.rating
    comment := p.comment
    disputed := p.disputed.getD false
    dispute_reason := p.disputeReason
    agent_resolution := none }

/-- The dynamic `data` payload of a parsed node response (`ApiResponse.data`
in the source, typed per call site but dynamic JSON on the wire). -/
inductive RespData : Type
  | str (s : String)
  | services (l : List ServiceRecord)
  | bookings (l : List BookingRecord)
  | reviews (l : List ReviewRecord)
  | raw (s : String)
deriving DecidableEq, Repr

/-- Embedding of the `ApiResponse` interface: the per-node response body
with its own success flag and optional data payload (the optional `error`
string is dropped; no property below inspects it). -/
structure ApiResponse where
  success : Bool
  data : Option RespData
deriving DecidableEq, Repr

/-- What one `fetch` call to a node can produce: the promise rejects with
some thrown value, or an HTTP response arrives with a numeric status, a
status text and a parsed JSON body.  A response whose body fails to parse
as JSON on the success path (where `handleFetchResponse` awaits
`response.json()` outside any try) is represented as a rejection. -/
inductive FetchOutcome : Type
  | reject (e : Thrown)
  | response (status : Nat) (statusText : String) (body : ApiResponse)
deriving DecidableEq, Repr

/-- The `Response.ok` field of the fetch API: true exactly when the status
is in the range 200-299. -/
def responseOk (status : Nat) : Bool :=
  200 ≤ status && status ≤ 299

/-- The behaviour of the node transport for one operation: each node is
contacted at most once per operation, so one outcome per node suffices. -/
def Transport : Type := NodeName → FetchOutcome

/-- Request bodies this layer sends (`JSON.stringify` arguments at the
`fetch` call sites). -/
inductive ReqBody : Type
  | schemaPayload (schemaId : String) (schemaName : String)
  | createData (schemaId : String) (record : RespData)
  | readData (schemaId : String) (filter : List (String × String))
  | execQuery (queryId : String) (vars : List (String × String))
deriving DecidableEq, Repr

/-- One outbound HTTP request: target node, endpoint path and body.  Every
request carries the same static auth headers (`getAuthHeaders`), so the
headers are not repeated here. -/
structure Request where
  node : NodeName
  path : String
  body : ReqBody
deriving DecidableEq, Repr

/-- Embedding of `handleFetchResponse` from `errors.ts`: when
`response.ok` is false it throws a `NillionDBError` with message
`errorMessage: status statusText` and code `NETWORK_ERROR` (the `details`
payload, parsed from the body or fallen back to status/statusText, is
dropped along with `NillionDBError.details`); when ok it returns the
parsed body.  A rejection of the `fetch` promise itself propagates
unchanged. -/
def handleFetchResponse (o : FetchOutcome) (errorMessage : String) :
    Except Thrown ApiResponse :=
  match o with
  | FetchOutcome.reject e => Except.error e
  | FetchOutcome.response status statusText body =>
      if responseOk status then Except.ok body
      else Except.error (Thrown.nillion
        { message := errorMessage ++ ": " ++ toString status ++ " " ++ statusText
          code := ErrorCode.NETWORK_ERROR })

/-- Joining one settled promise onto an already-joined rest: any rejection
wins, two resolutions cons their values. -/
def promiseCons {α : Type} (x : Except Thrown α)
    (rest : Except Thrown (List α)) : Except Thrown (List α) :=
  match x, rest with
  | Except.error e, _ => Except.error e
  | Except.ok _, Except.error e => Except.error e
  | Except.ok a, Except.ok as => Except.ok (a :: as)

/-- Deterministic model of `Promise.all`: all promises already ran (their
side effects are accounted for separately in the request log); the
aggregate resolves with the list of values when none rejected and otherwise
rejects, reporting the first rejection in list order. -/
def promiseAll {α : Type} : List (Except Thrown α) → Except Thrown (List α)
  | [] => Except.ok []
  | x :: xs => promiseCons x (promiseAll xs)

/-- One branch of the write fan-out (the body of the `async` callback the
source maps over `getValidNodes()`): `validateNodeConfig` raises a
`ConfigError` for an unusable node before any request, otherwise the
request is issued and its response handled. -/
def writeStep (env : Env) (tr : Transport) (path : String) (body : ReqBody)
    (failMsg : String) (n : NodeName) :
    List Request × Except Thrown ApiResponse :=
  if nodeUsable (nodeCfg env n) then
    ([{ node := n, path := path, body := body }],
     handleFetchResponse (tr n) failMsg)
  else
    ([], Except.error (Thrown.nillion
      { message := ERROR_MESSAGES.INVALID_NODE_CONFIG ++ " for " ++ nodeNameStr n
        code := ErrorCode.CONFIG_ERROR }))

/-- The write fan-out pattern inlined identically in `createService`,
`createBooking`, `createReview` and the three schema-creation operations:
map the per-node step over `getValidNodes()` and join the branches with
`Promise.all`.  All branches start before any is awaited, so every issued
request appears in the log even when some branch rejects. -/
def broadcastWrite (env : Env) (tr : Transport) (path : String)
    (body : ReqBody) (failMsg : String) :
    List Request × Except Thrown (List ApiResponse) :=
  let steps := (getValidNodes env).map (writeStep env tr path body failMsg)
  ((steps.map Prod.fst).flatten, promiseAll (steps.map Prod.snd))

/-- The single-node read pattern inlined identically in
`getAvailableServices`, `getClientBookings`, `getProviderBookings` and
`executeQuery`: fail with a `ConfigError` when no node is usable, otherwise
contact `validNodes[0]` only (after re-validating it). -/
def readOne (env : Env) (tr : Transport) (path : String) (body : ReqBody)
    (failMsg : String) :
    List Request × Except Thrown ApiResponse :=
  match getValidNodes env with
  | [] =>
      ([], Except.error (Thrown.nillion
        { message := "No valid nodes configured", code := ErrorCode.CONFIG_ERROR }))
  | n :: _ =>
      if nodeUsable (nodeCfg env n) then
        ([{ node := n, path := path, body := body }],
         handleFetchResponse (tr n) failMsg)
      else
        ([], Except.error (Thrown.nillion
          { message := ERROR_MESSAGES.INVALID_NODE_CONFIG ++ " for " ++ nodeNameStr n
            code := ErrorCode.CONFIG_ERROR }))

/-- The uniform result value every action returns to the agent tool layer:
a success flag and a human-readable message.  Operation-specific payload
fields (`serviceId`, `services`, `results`, ...) are not modelled; no
property below concerns them. -/
structure ActionResult where
  success : Bool
  message : String
deriving DecidableEq, Repr

/-- The observable outcome of one action call in the model: the returned
result, the error captured by the surrounding `catch` when one was raised
(`none` when the `try` block returned normally), and the log of every HTTP
request issued during the call. -/
structure Outcome where
  result : ActionResult
  caught : Option Thrown
  requests : List Request
deriving DecidableEq, Repr

/-- The `try`/`catch` wrapper shared by every action entry point: a normal
return passes through, a raised error becomes the uniform failure shape
with `formatErrorForAgent` as the message. -/
def runCatch (body : List Request × Except Thrown ActionResult) : Outcome :=
  match body with
  | (reqs, Except.ok r) => { result := r, caught := none, requests := reqs }
  | (reqs, Except.error e) =>
      { result := { success := false, message := formatErrorForAgent e }
        caught := some e
        requests := reqs }

/-- The result folding every write operation repeats verbatim: pass a
raised error through to the surrounding `catch`, and on a resolved fan-out
return `success: results.every(r => r.success)` with the operation's
message. -/
def finishWrite (okMsg : String)
    (wr : List Request × Except Thrown (List ApiResponse)) :
    List Request × Except Thrown ActionResult :=
  (wr.1,
   match wr.2 with
   | Except.error e => Except.error e
   | Except.ok results =>
       Except.ok
         { success := results.all (fun r => r.success), message := okMsg })

/-- The result folding every read operation repeats verbatim: pass a raised
error through to the surrounding `catch`, and on a handled response return
the literal `success: true` with the operation's message. -/
def finishRead (okMsg : String)
    (rd : List Request × Except Thrown ApiResponse) :
    List Request × Except Thrown ActionResult :=
  (rd.1,
   match rd.2 with
   | Except.error e => Except.error e
   | Except.ok _ => Except.ok { success := true, message := okMsg })

/-- Body of `createServiceSchema` (part_000 lines 187-220): broadcast the
service schema payload to every valid node; overall success is the
conjunction of the per-node `success` flags. -/
def createServiceSchemaBody (env : Env) (tr : Transport) :
    List Request × Except Thrown ActionResult :=
  finishWrite "🔧 Service schema created successfully"
    (broadcastWrite env tr API_ENDPOINTS.CREATE_SCHEMA
    (ReqBody.schemaPayload env.schemaService "service")
    ERROR_MESSAGES.SCHEMA_CREATION_FAILED)

/-- Entry point `createServiceSchema`. -/
def createServiceSchema (env : Env) (tr : Transport) : Outcome :=
  runCatch (createServiceSchemaBody env tr)

/-- Body of `createBookingSchema` (part_000 lines 222-255). -/
def createBookingSchemaBody (env : Env) (tr : Transport) :
    List Request × Except Thrown ActionResult :=
  finishWrite "🔧 Booking schema created successfully"
    (broadcastWrite env tr API_ENDPOINTS.CREATE_SCHEMA
    (ReqBody.schemaPayload env.schemaBooking "booking")
    ERROR_MESSAGES.SCHEMA_CREATION_FAILED)

/-- Entry point `createBookingSchema`. -/
def createBookingSchema (env : Env) (tr : Transport) : Outcome :=
  runCatch (createBookingSchemaBody env tr)

/-- Body of `createReviewSchema` (part_000 lines 257-290). -/
def createReviewSchemaBody (env : Env) (tr : Transport) :
    List Request × Except Thrown ActionResult :=
  finishWrite "🔧 Review schema created successfully"
    (broadcastWrite env tr API_ENDPOINTS.CREATE_SCHEMA
    (ReqBody.schemaPayload env.schemaReview "review")
    ERROR_MESSAGES.SCHEMA_CREATION_FAILED)

/-- Entry point `createReviewSchema`. -/
def createReviewSchema (env : Env) (tr : Transport) : Outcome :=
  runCatch (createReviewSchemaBody env tr)

/-- Body of `createService` (part_000 lines 293-373): reject a service type
outside `SERVICE_TYPES` with a `DataError` before any request, otherwise
build the record and broadcast it to every valid node. -/
def createServiceBody (env : Env) (p : CreateServiceParams) (meta : RecordMeta)
    (tr : Transport) : List Request × Except Thrown ActionResult :=
  if !(SERVICE_TYPES.contains p.serviceType) then
    ([], Except.error (Thrown.nillion
      { message := "Invalid service type. Must be one of: " ++
          String.intercalate ", " SERVICE_TYPES
        code := ErrorCode.DATA_ERROR }))
  else
    let record := buildServiceRecord p meta
    finishWrite "✅ Service created successfully"
      (broadcastWrite env tr API_ENDPOINTS.CREATE_DATA
        (ReqBody.createData env.schemaService (RespData.services [record]))
        ERROR_MESSAGES.DATA_CREATION_FAILED)

/-- Entry point `createService`. -/
def createService (env : Env) (p : CreateServiceParams) (meta : RecordMeta)
    (tr : Transport) : Outcome :=
  runCatch (createServiceBody env p meta tr)

/-- Body of `createBooking` (part_000 lines 376-441): no input validation;
build the record (status forced to `confirmed`) and broadcast it. -/
def createBookingBody (env : Env) (p : CreateBookingParams) (meta : RecordMeta)
    (tr : Transport) : List Request × Except Thrown ActionResult :=
  let record := buildBookingRecord p meta
  finishWrite "✅ Booking created successfully"
    (broadcastWrite env tr API_ENDPOINTS.CREATE_DATA
      (ReqBody.createData env.schemaBooking (RespData.bookings [record]))
      ERROR_MESSAGES.DATA_CREATION_FAILED)

/-- Entry point `createBooking`. -/
def createBooking (env : Env) (p : CreateBookingParams) (meta : RecordMeta)
    (tr : Transport) : Outcome :=
  runCatch (createBookingBody env p meta tr)

/-- Body of `createReview` (part_000 lines 444-514): reject a rating below 1
or above 5 with a `DataError` before any request, otherwise build the
record and broadcast it. -/
def createReviewBody (env : Env) (p : CreateReviewParams) (meta : RecordMeta)
    (tr : Transport) : List Request × Except Thrown ActionResult :=
  if p.rating < 1 ∨ p.rating > 5 then
    ([], Except.error (Thrown.nillion
      { message := "Rating must be between 1 and 5"
        code := ErrorCode.DATA_ERROR }))
  else
    let record := buildReviewRecord p meta
    finishWrite "✅ Review created successfully"
      (broadcastWrite env tr API_ENDPOINTS.CREATE_DATA
        (ReqBody.createData env.schemaReview (RespData.reviews [record]))
        ERROR_MESSAGES.DATA_CREATION_FAILED)

/-- Entry point `createReview`. -/
def createReview (env : Env) (p : CreateReviewParams) (meta : RecordMeta)
    (tr : Transport) : Outcome :=
  runCatch (createReviewBody env p meta tr)

/-- Body of `getAvailableServices` (part_000 lines 517-564): read from the
first valid node with an availability filter; on a handled response the
result is reported successful unconditionally (the source returns the
literal `success: true`). -/
def getAvailableServicesBody (env : Env) (p : GetAvailableServicesParams)
    (tr : Transport) : List Request × Except Thrown ActionResult :=
  let filter :=
    match p.serviceType with
    | some t => [("service_type", t), ("available", "true")]
    | none => [("available", "true")]
  finishRead "📋 Available services retrieved successfully"
    (readOne env tr API_ENDPOINTS.READ_DATA
    (ReqBody.readData env.schemaService filter)
    ERROR_MESSAGES.DATA_RETRIEVAL_FAILED)

/-- Entry point `getAvailableServices`. -/
def getAvailableServices (env : Env) (p : GetAvailableServicesParams)
    (tr : Transport) : Outcome :=
  runCatch (getAvailableServicesBody env p tr)

/-- Body of `getClientBookings` (part_000 lines 566-612). -/
def getClientBookingsBody (env : Env) (p : GetClientBookingsParams)
    (tr : Transport) : List Request × Except Thrown ActionResult :=
  finishRead "📋 Client bookings retrieved successfully"
    (readOne env tr API_ENDPOINTS.READ_DATA
    (ReqBody.readData env.schemaBooking [("client_id", p.clientId)])
    ERROR_MESSAGES.DATA_RETRIEVAL_FAILED)

/-- Entry point `getClientBookings`. -/
def getClientBookings (env : Env) (p : GetClientBookingsParams)
    (tr : Transport) : Outcome :=
  runCatch (getClientBookingsBody env p tr)

/-- Body of `getProviderBookings` (part_000 lines 614-660). -/
def getProviderBookingsBody (env : Env) (p : GetProviderBookingsParams)
    (tr : Transport) : List Request × Except Thrown ActionResult :=
  finishRead "📋 Provider bookings retrieved successfully"
    (readOne env tr API_ENDPOINTS.READ_DATA
    (ReqBody.readData env.schemaBooking [("provider_id", p.providerId)])
    ERROR_MESSAGES.DATA_RETRIEVAL_FAILED)

/-- Entry point `getProviderBookings`. -/
def getProviderBookings (env : Env) (p : GetProviderBookingsParams)
    (tr : Transport) : Outcome :=
  runCatch (getProviderBookingsBody env p tr)

/-- Body of `updateBookingStatus` (part_000 lines 663-693): reject a status
outside `Object.values(BOOKING_STATUS)` with a `DataError`; otherwise
return success immediately.  The source performs no read-modify-write and
issues no request (the commented-out plan is explicit about this being a
simplified version). -/
def updateBookingStatusBody (p : UpdateBookingStatusParams) :
    List Request × Except Thrown ActionResult :=
  if !(bookingStatusValues.contains p.status) then
    ([], Except.error (Thrown.nillion
      { message := "Invalid status. Must be one of: " ++
          String.intercalate ", " bookingStatusValues
        code := ErrorCode.DATA_ERROR }))
  else
    ([], Except.ok
      { success := true
        message := "🔄 Booking status updated to " ++ p.status })

/-- Entry point `updateBookingStatus`. -/
def updateBookingStatus (p : UpdateBookingStatusParams) : Outcome :=
  runCatch (updateBookingStatusBody p)

/-- Body of `resolveDispute` (part_000 lines 695-717): no validation, no
request; returns success unconditionally. -/
def resolveDisputeBody (_p : ResolveDisputeParams) :
    List Request × Except Thrown ActionResult :=
  ([], Except.ok
    { success := true
      message := "⚖️ Dispute resolved successfully" })

/-- Entry point `resolveDispute`. -/
def resolveDispute (p : ResolveDisputeParams) : Outcome :=
  runCatch (resolveDisputeBody p)

/-- One entry of `queryDefinitions` from `schemas.ts`.  The SQL template
text is kept one-line; only the `id` and `name` fields are consumed by the
provider. -/
structure QueryDef where
  id : String
  name : String
  description : String
  query : String
deriving DecidableEq, Repr

/-- The value list `Object.values(queryDefinitions)` in insertion order. -/
def queryDefinitions : List QueryDef :=
  [{ id := "find_services_by_type"
     name := "Find Services by Type"
     description := "Find available services by type"
     query := "SELECT * FROM service WHERE service_type = :service_type AND available = true ORDER BY date ASC, time ASC" },
   { id := "find_bookings_by_client"
     name := "Find Bookings by Client"
     description := "Find all bookings for a client"
     query := "SELECT * FROM booking WHERE client_id = :client_id ORDER BY booking_date DESC" },
   { id := "find_bookings_by_provider"
     name := "Find Bookings by Provider"
     description := "Find all bookings for a provider"
     query := "SELECT * FROM booking WHERE provider_id = :provider_id ORDER BY booking_date DESC" },
   { id := "find_disputed_reviews"
     name := "Find Disputed Reviews"
     description := "Find all disputed reviews"
     query := "SELECT * FROM review WHERE disputed = true ORDER BY created_at DESC" }]

/-- The catalog lookup in `executeQuery`:
`Object.values(queryDefinitions).find(q => q.id === queryId)`. -/
def findQueryDef (queryId : String) : Option QueryDef :=
  queryDefinitions.find? (fun q => q.id == queryId)

/-- Body of `executeQuery` (part_000 lines 720-778): an identifier missing
from the catalog raises a `QueryError` before the node set is even
examined; a catalog identifier is executed through the single-node read
path, and a handled response is reported successful unconditionally. -/
def executeQueryBody (env : Env) (p : ExecuteQueryParams) (tr : Transport) :
    List Request × Except Thrown ActionResult :=
  match findQueryDef p.queryId with
  | none =>
      ([], Except.error (Thrown.nillion
        { message := "Query with ID " ++ p.queryId ++ " not found"
          code := ErrorCode.QUERY_ERROR }))
  | some qd =>
      finishRead ("🔍 Query " ++ qd.name ++ " executed successfully")
        (readOne env tr API_ENDPOINTS.EXECUTE_QUERY
        (ReqBody.execQuery p.queryId (p.vars.getD []))
        ERROR_MESSAGES.QUERY_EXECUTION_FAILED)

/-- Entry point `executeQuery`. -/
def executeQuery (env : Env) (p : ExecuteQueryParams) (tr : Transport) :
    Outcome :=
  runCatch (executeQueryBody env p tr)

/-- A node "reports success" when its HTTP response arrives with a success
status and the parsed body carries `success: true`; a transport rejection
or a non-success status does not. -/
def nodeReportsSuccess (o : FetchOutcome) : Bool :=
  match o with
  | FetchOutcome.response status _ b => responseOk status && b.success
  | FetchOutcome.reject _ => false

/-- Aggregate success flag of a resolved write fan-out: `false` when the
joined promise rejected, otherwise the conjunction of the per-node body
flags. -/
def aggAll (x : Except Thrown (List ApiResponse)) : Bool :=
  match x with
  | Except.ok rs => rs.all (fun r => r.success)
  | Except.error _ => false

/-- An outcome failed because of an error with the given code: the uniform
failure flag is set and the captured error is a `NillionDBError` carrying
that code. -/
def failedWith (o : Outcome) (c : ErrorCode) : Prop :=
  o.result.success = false ∧
    ∃ e : NillionDBError, o.caught = some (Thrown.nillion e) ∧ e.code = c

/-- The `ConfigError` every read path raises when no node is usable. -/
def noNodesErr : Thrown :=
  Thrown.nillion
    { message := "No valid nodes configured", code := ErrorCode.CONFIG_ERROR }

/-- Configuration in which every node is missing its URL and DID (the
all-unusable case). -/
def envNone : Env :=
  { node1 := { url := "", did := "" }
    node2 := { url := "", did := "" }
    node3 := { url := "", did := "" }
    schemaService := "svc-schema"
    schemaBooking := "bkg-schema"
    schemaReview := "rev-schema"
    privateKey := "pk"
    orgDid := "org" }

/-- Configuration in which all three nodes are usable. -/
def envAll : Env :=
  { node1 := { url := "https://n1.example", did := "did:n1" }
    node2 := { url := "https://n2.example", did := "did:n2" }
    node3 := { url := "https://n3.example", did := "did:n3" }
    schemaService := "svc-schema"
    schemaBooking := "bkg-schema"
    schemaReview := "rev-schema"
    privateKey := "pk"
    orgDid := "org" }

/-- Transport in which every node answers 200 OK with a success body. -/
def trOk : Transport :=
  fun _ => FetchOutcome.response 200 "OK" { success := true, data := none }

/-- Transport in which NODE2 answers a non-success HTTP status and the
other nodes accept. -/
def trNode2Fails : Transport := fun n =>
  match n with
  | NodeName.NODE2 =>
      FetchOutcome.response 500 "Internal Server Error"
        { success := false, data := none }
  | _ => FetchOutcome.response 200 "OK" { success := true, data := none }

/-- A well-formed service-creation input (service type in the closed set). -/
def pServiceOk : CreateServiceParams :=
  { providerId := "prov-1"
    providerName := "Alice"
    serviceType := "tutoring"
    title := "Math tutoring"
    description := "Algebra basics"
    price := 50
    currency := "USD"
    durationMinutes := 60
    date := "2025-03-03"
    time := "14:00"
    timezone := "UTC"
    meetingLink := none
    tags := none }

/-- A service-creation input whose type is outside the closed set. -/
def pServiceBad : CreateServiceParams :=
  { pServiceOk with serviceType := "yoga" }

/-- A booking-creation input. -/
def pBooking : CreateBookingParams :=
  { serviceId := "svc-1"
    clientId := "cli-1"
    providerId := "prov-1"
    bookingDate := "2025-03-03"
    paymentAmount := 50
    paymentCurrency := "USD"
    meetingLink := "https://meet.example"
    notes := none }

/-- A review-creation input with an in-range rating. -/
def pReviewOk : CreateReviewParams :=
  { bookingId := "bkg-1"
    serviceId := "svc-1"
    clientId := "cli-1"
    providerId := "prov-1"
    rating := 5
    comment := "great"
    disputed := none
    disputeReason := none }

/-- A review-creation input with an out-of-range rating. -/
def pReviewBad : CreateReviewParams :=
  { pReviewOk with rating := 6 }

/-- Fixed local generation data for concrete evaluations. -/
def metaW : RecordMeta :=
  { id := "uuid-1", createdAt := "t0", updatedAt := "t0" }

lemma getValidNodes_usable (env : Env) :
    ∀ n ∈ getValidNodes env, nodeUsable (nodeCfg env n) = true := by
  intro n hn
  simp only [getValidNodes, List.mem_filter] at hn
  exact hn.2

lemma writeStep_of_usable (env : Env) (tr : Transport) (path : String)
    (body : ReqBody) (failMsg : String) (n : NodeName)
    (h : nodeUsable (nodeCfg env n) = true) :
    writeStep env tr path body failMsg n =
      ([{ node := n, path := path, body := body }],
       handleFetchResponse (tr n) failMsg) := by
  simp [writeStep, h]

lemma fanout_requests (env : Env) (tr : Transport) (path : String)
    (body : ReqBody) (failMsg : String) :
    ∀ l : List NodeName, (∀ n ∈ l, nodeUsable (nodeCfg env n) = true) →
      ((l.map (writeStep env tr path body failMsg)).map Prod.fst).flatten =
        l.map (fun n => ({ node := n, path := path, body := body } : Request))
  | [], _ => by simp
  | n :: ns, h => by
      have hn : nodeUsable (nodeCfg env n) = true := h n (List.mem_cons_self n ns)
      have hns : ∀ m ∈ ns, nodeUsable (nodeCfg env m) = true :=
        fun m hm => h m (List.mem_cons_of_mem n hm)
      simp only [List.map_cons, List.flatten_cons,
        writeStep_of_usable env tr path body failMsg n hn,
        fanout_requests env tr path body failMsg ns hns]
      rfl

lemma aggAll_promiseCons (x : Except Thrown ApiResponse)
    (r : Except Thrown (List ApiResponse)) :
    aggAll (promiseCons x r) =
      ((match x with
        | Except.ok b => b.success
        | Except.error _ => false) && aggAll r) := by
  cases x <;> cases r <;> simp [promiseCons, aggAll]

lemma handleFetch_success (o : FetchOutcome) (m : String) :
    (match handleFetchResponse o m with
     | Except.ok b => b.success
     | Except.error _ => false) = nodeReportsSuccess o := by
  cases o with
  | reject s => simp [handleFetchResponse, nodeReportsSuccess]
  | response status statusText b =>
      cases hok : responseOk status <;>
        simp [handleFetchResponse, nodeReportsSuccess, hok]

lemma fanout_agg (env : Env) (tr : Transport) (path : String)
    (body : ReqBody) (failMsg : String) :
    ∀ l : List NodeName, (∀ n ∈ l, nodeUsable (nodeCfg env n) = true) →
      aggAll (promiseAll
          ((l.map (writeStep env tr path body failMsg)).map Prod.snd)) =
        l.all (fun n => nodeReportsSuccess (tr n))
  | [], _ => by simp [promiseAll, aggAll]
  | n :: ns, h => by
      have hn : nodeUsable (nodeCfg env n) = true := h n (List.mem_cons_self n ns)
      have hns : ∀ m ∈ ns, nodeUsable (nodeCfg env m) = true :=
        fun m hm => h m (List.mem_cons_of_mem n hm)
      have ih := fanout_agg env tr path body failMsg ns hns
      simp only [List.map_cons, List.all_cons,
        writeStep_of_usable env tr path body failMsg n hn]
      rw [promiseAll, aggAll_promiseCons, handleFetch_success, ih]

lemma broadcastWrite_requests (env : Env) (tr : Transport) (path : String)
    (body : ReqBody) (failMsg : String) :
    (broadcastWrite env tr path body failMsg).1 =
      (getValidNodes env).map
        (fun n => ({ node := n, path := path, body := body } : Request)) := by
  simp only [broadcastWrite]
  exact fanout_requests env tr path body failMsg (getValidNodes env)
    (getValidNodes_usable env)

lemma broadcastWrite_agg (env : Env) (tr : Transport) (path : String)
    (body : ReqBody) (failMsg : String) :
    aggAll (broadcastWrite env tr path body failMsg).2 =
      (getValidNodes env).all (fun n => nodeReportsSuccess (tr n)) := by
  simp only [broadcastWrite]
  exact fanout_agg env tr path body failMsg (getValidNodes env)
    (getValidNodes_usable env)

lemma runCatch_finishWrite_success (okMsg : String)
    (wr : List Request × Except Thrown (List ApiResponse)) :
    (runCatch (finishWrite okMsg wr)).result.success = aggAll wr.2 := by
  cases h : wr.2 <;> simp [finishWrite, runCatch, aggAll, h]

lemma runCatch_finishWrite_requests (okMsg : String)
    (wr : List Request × Except Thrown (List ApiResponse)) :
    (runCatch (finishWrite okMsg wr)).requests = wr.1 := by
  cases h : wr.2 <;> simp [finishWrite, runCatch, h]

lemma runCatch_finishRead_requests (okMsg : String)
    (rd : List Request × Except Thrown ApiResponse) :
    (runCatch (finishRead okMsg rd)).requests = rd.1 := by
  cases h : rd.2 <;> simp [finishRead, runCatch, h]

lemma runCatch_caught (body : List Request × Except Thrown ActionResult)
    (e : Thrown) (h : (runCatch body).caught = some e) :
    (runCatch body).result.success = false ∧
      (runCatch body).result.message = formatErrorForAgent e := by
  rcases body with ⟨reqs, x⟩
  cases x with
  | ok r => simp [runCatch] at h
  | error e2 =>
      have he : e2 = e := by simpa [runCatch] using h
      subst he
      exact ⟨rfl, rfl⟩

lemma readOne_empty (env : Env) (tr : Transport) (path : String)
    (body : ReqBody) (failMsg : String) (h : getValidNodes env = []) :
    readOne env tr path body failMsg = ([], Except.error noNodesErr) := by
  simp [readOne, h, noNodesErr]

lemma readOne_cons (env : Env) (tr : Transport) (path : String)
    (body : ReqBody) (failMsg : String) (n : NodeName) (rest : List NodeName)
    (h : getValidNodes env = n :: rest) :
    readOne env tr path body failMsg =
      ([{ node := n, path := path, body := body }],
       handleFetchResponse (tr n) failMsg) := by
  have hn : nodeUsable (nodeCfg env n) = true :=
    getValidNodes_usable env n (h ▸ List.mem_cons_self n rest)
  simp [readOne, h, hn]

lemma createService_success (env : Env) (p : CreateServiceParams)
    (meta : RecordMeta) (tr : Transport)
    (h : SERVICE_TYPES.contains p.serviceType = true) :
    (createService env p meta tr).result.success =
      (getValidNodes env).all (fun n => nodeReportsSuccess (tr n)) := by
  simp only [createService, createServiceBody, h, Bool.not_true,
    Bool.false_eq_true, if_false]
  rw [runCatch_finishWrite_success, broadcastWrite_agg]

lemma createService_requests (env : Env) (p : CreateServiceParams)
    (meta : RecordMeta) (tr : Transport)
    (h : SERVICE_TYPES.contains p.serviceType = true) :
    (createService env p meta tr).requests =
      (getValidNodes env).map (fun n =>
        ({ node := n, path := API_ENDPOINTS.CREATE_DATA
           body := ReqBody.createData env.schemaService
             (RespData.services [buildServiceRecord p meta]) } : Request)) := by
  simp only [createService, createServiceBody, h, Bool.not_true,
    Bool.false_eq_true, if_false]
  rw [runCatch_finishWrite_requests, broadcastWrite_requests]

lemma createBooking_success (env : Env) (p : CreateBookingParams)
    (meta : RecordMeta) (tr : Transport) :
    (createBooking env p meta tr).result.success =
      (getValidNodes env).all (fun n => nodeReportsSuccess (tr n)) := by
  simp only [createBooking, createBookingBody]
  rw [runCatch_finishWrite_success, broadcastWrite_agg]

lemma createBooking_requests (env : Env) (p : CreateBookingParams)
    (meta : RecordMeta) (tr : Transport) :
    (createBooking env p meta tr).requests =
      (getValidNodes env).map (fun n =>
        ({ node := n, path := API_ENDPOINTS.CREATE_DATA
           body := ReqBody.createData env.schemaBooking
             (RespData.bookings [buildBookingRecord p meta]) } : Request)) := by
  simp only [createBooking, createBookingBody]
  rw [runCatch_finishWrite_requests, broadcastWrite_requests]

lemma createReview_success (env : Env) (p : CreateReviewParams)
    (meta : RecordMeta) (tr : Transport)
    (h : ¬(p.rating < 1 ∨ p.rating > 5)) :
    (createReview env p meta tr).result.success =
      (getValidNodes env).all (fun n => nodeReportsSuccess (tr n)) := by
  simp only [createReview, createReviewBody, h, if_false]
  rw [runCatch_finishWrite_success, broadcastWrite_agg]

lemma createReview_requests (env : Env) (p : CreateReviewParams)
    (meta : RecordMeta) (tr : Transport)
    (h : ¬(p.rating < 1 ∨ p.rating > 5)) :
    (createReview env p meta tr).requests =
      (getValidNodes env).map (fun n =>
        ({ node := n, path := API_ENDPOINTS.CREATE_DATA
           body := ReqBody.createData env.schemaReview
             (RespData.reviews [buildReviewRecord p meta]) } : Request)) := by
  simp only [createReview, createReviewBody, h, if_false]
  rw [runCatch_finishWrite_requests, broadcastWrite_requests]

lemma createServiceSchema_success (env : Env) (tr : Transport) :
    (createServiceSchema env tr).result.success =
      (getValidNodes env).all (fun n => nodeReportsSuccess (tr n)) := by
  simp only [createServiceSchema, createServiceSchemaBody]
  rw [runCatch_finishWrite_success, broadcastWrite_agg]

lemma createServiceSchema_requests (env : Env) (tr : Transport) :
    (createServiceSchema env tr).requests =
      (getValidNodes env).map (fun n =>
        ({ node := n, path := API_ENDPOINTS.CREATE_SCHEMA
           body := ReqBody.schemaPayload env.schemaService "service" } : Request)) := by
  simp only [createServiceSchema, createServiceSchemaBody]
  rw [runCatch_finishWrite_requests, broadcastWrite_requests]

lemma createBookingSchema_success (env : Env) (tr : Transport) :
    (createBookingSchema env tr).result.success =
      (getValidNodes env).all (fun n => nodeReportsSuccess (tr n)) := by
  simp only [createBookingSchema, createBookingSchemaBody]
  rw [runCatch_finishWrite_success, broadcastWrite_agg]

lemma createBookingSchema_requests (env : Env) (tr : Transport) :
    (createBookingSchema env tr).requests =
      (getValidNodes env).map (fun n =>
        ({ node := n, path := API_ENDPOINTS.CREATE_SCHEMA
           body := ReqBody.schemaPayload env.schemaBooking "booking" } : Request)) := by
  simp only [createBookingSchema, createBookingSchemaBody]
  rw [runCatch_finishWrite_requests, broadcastWrite_requests]

lemma createReviewSchema_success (env : Env) (tr : Transport) :
    (createReviewSchema env tr).result.success =
      (getValidNodes env).all (fun n => nodeReportsSuccess (tr n)) := by
  simp only [createReviewSchema, createReviewSchemaBody]
  rw [runCatch_finishWrite_success, broadcastWrite_agg]

lemma createReviewSchema_requests (env : Env) (tr : Transport) :
    (createReviewSchema env tr).requests =
      (getValidNodes env).map (fun n =>
        ({ node := n, path := API_ENDPOINTS.CREATE_SCHEMA
           body := ReqBody.schemaPayload env.schemaReview "review" } : Request)) := by
  simp only [createReviewSchema, createReviewSchemaBody]
  rw [runCatch_finishWrite_requests, broadcastWrite_requests]

/-- C3: for every input whose serviceType is outside the closed set
`SERVICE_TYPES`, `createService` fails with a `DataError` and issues zero
HTTP requests, whatever the environment and transport. -/
theorem C3_invalid_service_type (env : Env) (ps : CreateServiceParams)
    (meta : RecordMeta) (tr : Transport)
    (h : SERVICE_TYPES.contains ps.serviceType = false) :
    failedWith (createService env ps meta tr) ErrorCode.DATA_ERROR ∧
      (createService env ps meta tr).requests = [] := by
  have hop : createService env ps meta tr =
      runCatch ([], Except.error (Thrown.nillion
        { message := "Invalid service type. Must be one of: " ++
            String.intercalate ", " SERVICE_TYPES
          code := ErrorCode.DATA_ERROR })) := by
    have hmem : ps.serviceType ∉ SERVICE_TYPES := by simpa using h
    simp [createService, createServiceBody, hmem]
  rw [hop]
  exact ⟨⟨rfl, ⟨_, rfl, rfl⟩⟩, rfl⟩

/-- Witness for C3 at the concrete out-of-set type "yoga". -/
theorem C3_witness :
    SERVICE_TYPES.contains pServiceBad.serviceType = false ∧
      (failedWith (createService envAll pServiceBad metaW trOk)
          ErrorCode.DATA_ERROR ∧
        (createService envAll pServiceBad metaW trOk).requests = []) :=
  ⟨by decide, C3_invalid_service_type envAll pServiceBad metaW trOk (by decide)⟩

/-- C4: for every input whose rating is below 1 or above 5, `createReview`
fails with a `DataError` and issues zero HTTP requests. -/
theorem C4_invalid_rating (env : Env) (pr : CreateReviewParams)
    (meta : RecordMeta) (tr : Transport)
    (h : pr.rating < 1 ∨ pr.rating > 5) :
    failedWith (createReview env pr meta tr) ErrorCode.DATA_ERROR ∧
      (createReview env pr meta tr).requests = [] := by
  have hop : createReview env pr meta tr =
      runCatch ([], Except.error (Thrown.nillion
        { message := "Rating must be between 1 and 5"
          code := ErrorCode.DATA_ERROR })) := by
    simp only [createReview, createReviewBody, if_pos h]
  rw [hop]
  exact ⟨⟨rfl, ⟨_, rfl, rfl⟩⟩, rfl⟩

/-- Witness for C4 at the concrete out-of-range rating 6. -/
theorem C4_witness :
    (pReviewBad.rating < 1 ∨ pReviewBad.rating > 5) ∧
      (failedWith (createReview envAll pReviewBad metaW trOk)
          ErrorCode.DATA_ERROR ∧
        (createReview envAll pReviewBad metaW trOk).requests = []) :=
  ⟨Or.inr (by norm_num [pReviewBad, pReviewOk]),
   C4_invalid_rating envAll pReviewBad metaW trOk
     (Or.inr (by norm_num [pReviewBad, pReviewOk]))⟩

/-- C6: `updateBookingStatus` on any status from the closed set returns
success without issuing a single request, and `resolveDispute` returns
success on every input without issuing a single request; neither touches a
stored record (no request ever leaves this layer for either call). -/
theorem C6_fake_updates (pu : UpdateBookingStatusParams)
    (pd : ResolveDisputeParams)
    (h : bookingStatusValues.contains pu.status = true) :
    ((updateBookingStatus pu).result.success = true ∧
      (updateBookingStatus pu).requests = []) ∧
    ((resolveDispute pd).result.success = true ∧
      (resolveDispute pd).requests = []) := by
  constructor
  · have hop : updateBookingStatus pu =
        runCatch ([], Except.ok
          { success := true
            message := "🔄 Booking status updated to " ++ pu.status }) := by
      have hmem : pu.status ∈ bookingStatusValues := by simpa using h
      simp [updateBookingStatus, updateBookingStatusBody, hmem]
    rw [hop]
    exact ⟨rfl, rfl⟩
  · exact ⟨rfl, rfl⟩

/-- Witness for C6 at the concrete status "completed". -/
theorem C6_witness :
    bookingStatusValues.contains "completed" = true ∧
      (updateBookingStatus
          { bookingId := "bkg-1", status := "completed", agentNotes := none
          }).result.success = true ∧
      (resolveDispute { reviewId := "rev-1", resolution := "refund"
          }).requests = [] :=
  ⟨by decide,
   (C6_fake_updates
      { bookingId := "bkg-1", status := "completed", agentNotes := none }
      { reviewId := "rev-1", resolution := "refund" } (by decide)).1.1,
   (C6_fake_updates
      { bookingId := "bkg-1", status := "completed", agentNotes := none }
      { reviewId := "rev-1", resolution := "refund" } (by decide)).2.2⟩

/-- C9: every booking record constructed by `createBooking` carries status
`confirmed` (the parameter object has no status field, so no caller-chosen
status can enter), and every request the call broadcasts carries exactly
that record. -/
theorem C9_booking_status_confirmed (env : Env) (pb : CreateBookingParams)
    (meta : RecordMeta) (tr : Transport) :
    (buildBookingRecord pb meta).status = BOOKING_STATUS.CONFIRMED ∧
      ∀ r ∈ (createBooking env pb meta tr).requests,
        r.body = ReqBody.createData env.schemaBooking
          (RespData.bookings [buildBookingRecord pb meta]) := by
  refine ⟨rfl, ?_⟩
  rw [createBooking_requests]
  intro r hr
  rcases List.mem_map.mp hr with ⟨n, _, rfl⟩
  rfl

/-- Witness for C9 at concrete inputs: the first broadcast request of a
concrete booking call carries the constructed record and that record's
status is `confirmed`. -/
theorem C9_witness :
    (buildBookingRecord pBooking metaW).status = BOOKING_STATUS.CONFIRMED ∧
      ({ node := NodeName.NODE1, path := API_ENDPOINTS.CREATE_DATA
         body := ReqBody.createData envAll.schemaBooking
           (RespData.bookings [buildBookingRecord pBooking metaW]) } :
          Request).body =
        ReqBody.createData envAll.schemaBooking
          (RespData.bookings [buildBookingRecord pBooking metaW]) :=
  ⟨(C9_booking_status_confirmed envAll pBooking metaW trOk).1,
   (C9_booking_status_confirmed envAll pBooking metaW trOk).2 _ (by decide)⟩

/-- C10: every record a write constructs has `encrypted = true`; a service
record additionally has `available = true` and empty `tags` when the tags
parameter is omitted; a booking record has empty `notes` when the notes
parameter is omitted; a review record has `disputed = false` when the
disputed parameter is omitted.  These builders are exactly the records the
create operations broadcast (see the request-shape lemmas above). -/
theorem C10_record_defaults (ps : CreateServiceParams)
    (pb : CreateBookingParams) (pr : CreateReviewParams) (meta : RecordMeta) :
    (buildServiceRecord ps meta).encrypted = true ∧
      (buildBookingRecord pb meta).encrypted = true ∧
      (buildReviewRecord pr meta).encrypted = true ∧
      (buildServiceRecord ps meta).available = true ∧
      (ps.tags = none → (buildServiceRecord ps meta).tags = []) ∧
      (pb.notes = none → (buildBookingRecord pb meta).notes = "") ∧
      (pr.disputed = none → (buildReviewRecord pr meta).disputed = false) := by
  refine ⟨rfl, rfl, rfl, rfl, ?_, ?_, ?_⟩ <;> intro h <;>
    simp [buildServiceRecord, buildBookingRecord, buildReviewRecord, h]

/-- Witness for C10 at concrete inputs whose optional fields are all
omitted. -/
theorem C10_witness :
    (buildServiceRecord pServiceOk metaW).tags = [] ∧
      (buildBookingRecord pBooking metaW).notes = "" ∧
      (buildReviewRecord pReviewOk metaW).disputed = false :=
  ⟨(C10_record_defaults pServiceOk pBooking pReviewOk metaW).2.2.2.2.1 rfl,
   (C10_record_defaults pServiceOk pBooking pReviewOk metaW).2.2.2.2.2.1 rfl,
   (C10_record_defaults pServiceOk pBooking pReviewOk metaW).2.2.2.2.2.2 rfl⟩

/-- C2: for every write fan-out over a non-empty usable-node set (the three
create operations, when their validation passes, and the three
schema-creation operations), the aggregate success flag is true exactly
when every usable node reports success - a logical AND over all nodes, not
a quorum. -/
theorem C2_all_nodes_and (env : Env) (tr : Transport) (meta : RecordMeta)
    (ps : CreateServiceParams) (pb : CreateBookingParams)
    (pr : CreateReviewParams) (hne : getValidNodes env ≠ []) :
    (SERVICE_TYPES.contains ps.serviceType = true →
      ((createService env ps meta tr).result.success = true ↔
        ∀ n ∈ getValidNodes env, nodeReportsSuccess (tr n) = true)) ∧
    ((createBooking env pb meta tr).result.success = true ↔
      ∀ n ∈ getValidNodes env, nodeReportsSuccess (tr n) = true) ∧
    (¬(pr.rating < 1 ∨ pr.rating > 5) →
      ((createReview env pr meta tr).result.success = true ↔
        ∀ n ∈ getValidNodes env, nodeReportsSuccess (tr n) = true)) ∧
    ((createServiceSchema env tr).result.success = true ↔
      ∀ n ∈ getValidNodes env, nodeReportsSuccess (tr n) = true) ∧
    ((createBookingSchema env tr).result.success = true ↔
      ∀ n ∈ getValidNodes env, nodeReportsSuccess (tr n) = true) ∧
    ((createReviewSchema env tr).result.success = true ↔
      ∀ n ∈ getValidNodes env, nodeReportsSuccess (tr n) = true) := by
  refine ⟨fun hst => ?_, ?_, fun hrt => ?_, ?_, ?_, ?_⟩
  · rw [createService_success env ps meta tr hst]
    exact List.all_eq_true
  · rw [createBooking_success env pb meta tr]
    exact List.all_eq_true
  · rw [createReview_success env pr meta tr hrt]
    exact List.all_eq_true
  · rw [createServiceSchema_success env tr]
    exact List.all_eq_true
  · rw [createBookingSchema_success env tr]
    exact List.all_eq_true
  · rw [createReviewSchema_success env tr]
    exact List.all_eq_true

/-- Witness for C2 at a concrete three-node environment with an
all-accepting transport. -/
theorem C2_witness :
    (createService envAll pServiceOk metaW trOk).result.success = true :=
  ((C2_all_nodes_and envAll trOk metaW pServiceOk pBooking pReviewOk
      (by decide)).1 (by decide)).mpr (by decide)

/-- C5: with all three nodes usable and exactly one node answering a
non-success HTTP status while the others accept, a service write reports
overall failure, yet the write request was issued to (and accepted by) all
three nodes, and every request of the call targets the data-creation
endpoint - no compensating delete or rollback request exists. -/
theorem C5_no_compensation (env : Env) (ps : CreateServiceParams)
    (meta : RecordMeta) (tr : Transport) (bad : NodeName)
    (hst : SERVICE_TYPES.contains ps.serviceType = true)
    (hall : getValidNodes env = nodeKeys)
    (hbad : ∃ status statusText body,
      tr bad = FetchOutcome.response status statusText body ∧
        responseOk status = false)
    (hok : ∀ n, n ≠ bad → nodeReportsSuccess (tr n) = true) :
    (createService env ps meta tr).result.success = false ∧
      (createService env ps meta tr).requests =
        nodeKeys.map (fun n =>
          ({ node := n, path := API_ENDPOINTS.CREATE_DATA
             body := ReqBody.createData env.schemaService
               (RespData.services [buildServiceRecord ps meta]) } : Request)) ∧
      ∀ r ∈ (createService env ps meta tr).requests,
        r.path = API_ENDPOINTS.CREATE_DATA := by
  have hbadmem : bad ∈ nodeKeys := by cases bad <;> simp [nodeKeys]
  have hf : nodeReportsSuccess (tr bad) = false := by
    rcases hbad with ⟨status, statusText, b, hb, hstatus⟩
    rw [hb]
    simp [nodeReportsSuccess, hstatus]
  have hreq : (createService env ps meta tr).requests =
      nodeKeys.map (fun n =>
        ({ node := n, path := API_ENDPOINTS.CREATE_DATA
           body := ReqBody.createData env.schemaService
             (RespData.services [buildServiceRecord ps meta]) } : Request)) := by
    rw [createService_requests env ps meta tr hst, hall]
  refine ⟨?_, hreq, ?_⟩
  · rw [createService_success env ps meta tr hst, hall]
    refine Bool.eq_false_iff.mpr fun htrue => ?_
    have := List.all_eq_true.mp htrue bad hbadmem
    rw [hf] at this
    exact Bool.false_ne_true this
  · rw [hreq]
    intro r hr
    rcases List.mem_map.mp hr with ⟨n, _, rfl⟩
    rfl

/-- Witness for C5: NODE2 rejects with a non-success status, NODE1 and
NODE3 accept. -/
theorem C5_witness :
    (createService envAll pServiceOk metaW trNode2Fails).result.success =
      false :=
  (C5_no_compensation envAll pServiceOk metaW trNode2Fails NodeName.NODE2
    (by decide) (by decide)
    ⟨500, "Internal Server Error", { success := false, data := none },
      rfl, by decide⟩
    (by
      intro n hn
      cases n
      · decide
      · exact absurd rfl hn
      · decide)).1

/-- C7: `executeQuery` with an identifier outside the predefined catalog
fails with a `QueryError` and issues zero HTTP requests; with a catalog
identifier and a non-empty usable-node set it issues exactly one request,
to the first usable node, on the query-execution endpoint. -/
theorem C7_query_catalog (env : Env) (pq : ExecuteQueryParams)
    (tr : Transport) :
    (findQueryDef pq.queryId = none →
      failedWith (executeQuery env pq tr) ErrorCode.QUERY_ERROR ∧
        (executeQuery env pq tr).requests = []) ∧
    (∀ qd n rest, findQueryDef pq.queryId = some qd →
      getValidNodes env = n :: rest →
      (executeQuery env pq tr).requests =
        [{ node := n, path := API_ENDPOINTS.EXECUTE_QUERY
           body := ReqBody.execQuery pq.queryId (pq.vars.getD []) }]) := by
  constructor
  · intro hfind
    have hop : executeQuery env pq tr =
        runCatch ([], Except.error (Thrown.nillion
          { message := "Query with ID " ++ pq.queryId ++ " not found"
            code := ErrorCode.QUERY_ERROR })) := by
      simp [executeQuery, executeQueryBody, hfind]
    rw [hop]
    exact ⟨⟨rfl, ⟨_, rfl, rfl⟩⟩, rfl⟩
  · intro qd n rest hfind hcons
    simp only [executeQuery, executeQueryBody, hfind]
    rw [runCatch_finishRead_requests,
      readOne_cons env tr API_ENDPOINTS.EXECUTE_QUERY
        (ReqBody.execQuery pq.queryId (pq.vars.getD []))
        ERROR_MESSAGES.QUERY_EXECUTION_FAILED n rest hcons]

/-- Witness for C7: an unknown identifier issues nothing, and the catalog
identifier find_disputed_reviews issues exactly one request to the first
usable node. -/
theorem C7_witness :
    (executeQuery envAll { queryId := "nope", vars := none } trOk).requests
        = [] ∧
      (executeQuery envAll
          { queryId := "find_disputed_reviews", vars := none } trOk).requests =
        [{ node := NodeName.NODE1, path := API_ENDPOINTS.EXECUTE_QUERY
           body := ReqBody.execQuery "find_disputed_reviews" [] }] :=
  ⟨((C7_query_catalog envAll { queryId := "nope", vars := none } trOk).1
      (by decide)).2,
   (C7_query_catalog envAll
       { queryId := "find_disputed_reviews", vars := none } trOk).2
     { id := "find_disputed_reviews"
       name := "Find Disputed Reviews"
       description := "Find all disputed reviews"
       query := "SELECT * FROM review WHERE disputed = true ORDER BY created_at DESC" }
     NodeName.NODE1 [NodeName.NODE2, NodeName.NODE3] (by decide) (by decide)⟩

/-- C8: no action-provider entry point propagates a raised error: whenever
an internal error is captured by the surrounding catch, the returned
outcome is the uniform failure shape, with the success flag false and the
formatted error as the message - for every input and every transport
behaviour. -/
theorem C8_no_exception_escapes (env : Env) (tr : Transport)
    (meta : RecordMeta) (ps : CreateServiceParams) (pb : CreateBookingParams)
    (pr : CreateReviewParams) (pga : GetAvailableServicesParams)
    (pgc : GetClientBookingsParams) (pgp : GetProviderBookingsParams)
    (pu : UpdateBookingStatusParams) (pd : ResolveDisputeParams)
    (pq : ExecuteQueryParams) :
    (∀ e, (createServiceSchema env tr).caught = some e →
      (createServiceSchema env tr).result.success = false ∧
        (createServiceSchema env tr).result.message = formatErrorForAgent e) ∧
    (∀ e, (createBookingSchema env tr).caught = some e →
      (createBookingSchema env tr).result.success = false ∧
        (createBookingSchema env tr).result.message = formatErrorForAgent e) ∧
    (∀ e, (createReviewSchema env tr).caught = some e →
      (createReviewSchema env tr).result.success = false ∧
        (createReviewSchema env tr).result.message = formatErrorForAgent e) ∧
    (∀ e, (createService env ps meta tr).caught = some e →
      (createService env ps meta tr).result.success = false ∧
        (createService env ps meta tr).result.message = formatErrorForAgent e) ∧
    (∀ e, (createBooking env pb meta tr).caught = some e →
      (createBooking env pb meta tr).result.success = false ∧
        (createBooking env pb meta tr).result.message = formatErrorForAgent e) ∧
    (∀ e, (createReview env pr meta tr).caught = some e →
      (createReview env pr meta tr).result.success = false ∧
        (createReview env pr meta tr).result.message = formatErrorForAgent e) ∧
    (∀ e, (getAvailableServices env pga tr).caught = some e →
      (getAvailableServices env pga tr).result.success = false ∧
        (getAvailableServices env pga tr).result.message =
          formatErrorForAgent e) ∧
    (∀ e, (getClientBookings env pgc tr).caught = some e →
      (getClientBookings env pgc tr).result.success = false ∧
        (getClientBookings env pgc tr).result.message =
          formatErrorForAgent e) ∧
    (∀ e, (getProviderBookings env pgp tr).caught = some e →
      (getProviderBookings env pgp tr).result.success = false ∧
        (getProviderBookings env pgp tr).result.message =
          formatErrorForAgent e) ∧
    (∀ e, (updateBookingStatus pu).caught = some e →
      (updateBookingStatus pu).result.success = false ∧
        (updateBookingStatus pu).result.message = formatErrorForAgent e) ∧
    (∀ e, (resolveDispute pd).caught = some e →
      (resolveDispute pd).result.success = false ∧
        (resolveDispute pd).result.message = formatErrorForAgent e) ∧
    (∀ e, (executeQuery env pq tr).caught = some e →
      (executeQuery env pq tr).result.success = false ∧
        (executeQuery env pq tr).result.message = formatErrorForAgent e) := by
  refine ⟨?_, ?_, ?_, ?_, ?_, ?_, ?_, ?_, ?_, ?_, ?_, ?_⟩ <;>
    exact fun e h => runCatch_caught _ e h

/-- Witness for C8: a concrete call that does capture an internal error (a
read with zero usable nodes) returns the uniform failure shape. -/
theorem C8_witness :
    (getAvailableServices envNone { serviceType := none } trOk).result.success
        = false ∧
      (getAvailableServices envNone { serviceType := none }
          trOk).result.message = formatErrorForAgent noNodesErr :=
  (C8_no_exception_escapes envNone trOk metaW pServiceOk pBooking pReviewOk
      { serviceType := none } { clientId := "c" } { providerId := "p" }
      { bookingId := "b", status := "confirmed", agentNotes := none }
      { reviewId := "r", resolution := "ok" }
      { queryId := "q", vars := none }).2.2.2.2.2.2.1 noNodesErr rfl

/-- C1 counterexample: with zero usable nodes, a valid `createService` call
does NOT fail with a ConfigError - the fan-out maps over the empty node
list, `Promise.all([])` resolves to `[]`, and `[].every(...)` is true, so
the call returns success with no captured error (and zero requests).  This
refutes the claim that every write operation fails fast with a ConfigError
in this situation. -/
theorem C1_counterexample :
    getValidNodes envNone = [] ∧
      (createService envNone pServiceOk metaW trOk).result.success = true ∧
      (createService envNone pServiceOk metaW trOk).caught = none ∧
      (createService envNone pServiceOk metaW trOk).requests = [] := by
  decide

/-- C1 (amended): with zero usable nodes, every read operation
(`getAvailableServices`, `getClientBookings`, `getProviderBookings`, and
`executeQuery` on a catalog identifier) fails with a `ConfigError` and
issues zero HTTP requests; every write operation (the three create
operations when their validation passes, and the three schema creations)
also issues zero HTTP requests but reports success: the empty fan-out
resolves vacuously instead of failing. -/
theorem C1_zero_nodes (env : Env) (h : getValidNodes env = [])
    (tr : Transport) (meta : RecordMeta) (ps : CreateServiceParams)
    (pb : CreateBookingParams) (pr : CreateReviewParams)
    (pga : GetAvailableServicesParams) (pgc : GetClientBookingsParams)
    (pgp : GetProviderBookingsParams) (pq : ExecuteQueryParams) :
    (failedWith (getAvailableServices env pga tr) ErrorCode.CONFIG_ERROR ∧
      (getAvailableServices env pga tr).requests = []) ∧
    (failedWith (getClientBookings env pgc tr) ErrorCode.CONFIG_ERROR ∧
      (getClientBookings env pgc tr).requests = []) ∧
    (failedWith (getProviderBookings env pgp tr) ErrorCode.CONFIG_ERROR ∧
      (getProviderBookings env pgp tr).requests = []) ∧
    ((findQueryDef pq.queryId).isSome = true →
      failedWith (executeQuery env pq tr) ErrorCode.CONFIG_ERROR ∧
        (executeQuery env pq tr).requests = []) ∧
    (SERVICE_TYPES.contains ps.serviceType = true →
      (createService env ps meta tr).result.success = true ∧
        (createService env ps meta tr).requests = []) ∧
    ((createBooking env pb meta tr).result.success = true ∧
      (createBooking env pb meta tr).requests = []) ∧
    (¬(pr.rating < 1 ∨ pr.rating > 5) →
      (createReview env pr meta tr).result.success = true ∧
        (createReview env pr meta tr).requests = []) ∧
    ((createServiceSchema env tr).result.success = true ∧
      (createServiceSchema env tr).requests = []) ∧
    ((createBookingSchema env tr).result.success = true ∧
      (createBookingSchema env tr).requests = []) ∧
    ((createReviewSchema env tr).result.success = true ∧
      (createReviewSchema env tr).requests = []) := by
  refine ⟨?_, ?_, ?_, ?_, fun hst => ⟨?_, ?_⟩, ⟨?_, ?_⟩, fun hrt => ⟨?_, ?_⟩,
    ⟨?_, ?_⟩, ⟨?_, ?_⟩, ⟨?_, ?_⟩⟩
  · have hop : getAvailableServices env pga tr =
        runCatch ([], Except.error noNodesErr) := by
      simp [getAvailableServices, getAvailableServicesBody, readOne, h,
        finishRead, noNodesErr]
    rw [hop]
    exact ⟨⟨rfl, ⟨_, rfl, rfl⟩⟩, rfl⟩
  · have hop : getClientBookings env pgc tr =
        runCatch ([], Except.error noNodesErr) := by
      simp [getClientBookings, getClientBookingsBody, readOne, h,
        finishRead, noNodesErr]
    rw [hop]
    exact ⟨⟨rfl, ⟨_, rfl, rfl⟩⟩, rfl⟩
  · have hop : getProviderBookings env pgp tr =
        runCatch ([], Except.error noNodesErr) := by
      simp [getProviderBookings, getProviderBookingsBody, readOne, h,
        finishRead, noNodesErr]
    rw [hop]
    exact ⟨⟨rfl, ⟨_, rfl, rfl⟩⟩, rfl⟩
  · intro hq
    rcases Option.isSome_iff_exists.mp hq with ⟨qd, hqd⟩
    have hop : executeQuery env pq tr =
        runCatch ([], Except.error noNodesErr) := by
      simp [executeQuery, executeQueryBody, hqd, readOne, h,
        finishRead, noNodesErr]
    rw [hop]
    exact ⟨⟨rfl, ⟨_, rfl, rfl⟩⟩, rfl⟩
  · have hs := createService_success env ps meta tr hst
    rw [h] at hs
    simpa using hs
  · have hr := createService_requests env ps meta tr hst
    rw [h] at hr
    simpa using hr
  · have hs := createBooking_success env pb meta tr
    rw [h] at hs
    simpa using hs
  · have hr := createBooking_requests env pb meta tr
    rw [h] at hr
    simpa using hr
  · have hs := createReview_success env pr meta tr hrt
    rw [h] at hs
    simpa using hs
  · have hr := createReview_requests env pr meta tr hrt
    rw [h] at hr
    simpa using hr
  · have hs := createServiceSchema_success env tr
    rw [h] at hs
    simpa using hs
  · have hr := createServiceSchema_requests env tr
    rw [h] at hr
    simpa using hr
  · have hs := createBookingSchema_success env tr
    rw [h] at hs
    simpa using hs
  · have hr := createBookingSchema_requests env tr
    rw [h] at hr
    simpa using hr
  · have hs := createReviewSchema_success env tr
    rw [h] at hs
    simpa using hs
  · have hr := createReviewSchema_requests env tr
    rw [h] at hr
    simpa using hr

/-- Witness for C1 (amended) at the all-unusable environment. -/
theorem C1_witness :
    failedWith (getAvailableServices envNone { serviceType := none } trOk)
        ErrorCode.CONFIG_ERROR ∧
      (createService envNone pServiceOk metaW trOk).result.success = true ∧
      (createService envNone pServiceOk metaW trOk).requests = [] :=
  ⟨(C1_zero_nodes envNone (by decide) trOk metaW pServiceOk pBooking
      pReviewOk { serviceType := none } { clientId := "c" }
      { providerId := "p" }
      { queryId := "find_disputed_reviews", vars := none }).1.1,
   ((C1_zero_nodes envNone (by decide) trOk metaW pServiceOk pBooking
      pReviewOk { serviceType := none } { clientId := "c" }
      { providerId := "p" }
      { queryId := "find_disputed_reviews", vars := none }).2.2.2.2.1
     (by decide)).1,
   ((C1_zero_nodes envNone (by decide) trOk metaW pServiceOk pBooking
      pReviewOk { serviceType := none } { clientId := "c" }
      { providerId := "p" }
      { queryId := "find_disputed_reviews", vars := none }).2.2.2.2.1
     (by decide)).2⟩
